/-
Verification of the Entertainment-AI-Agent recommendation system (src/main.py).

Shallow embedding conventions:
* Python floats are modelled as exact rationals (ℚ); the spec's scoring
  constants (0.3, 0.2, ...) are exact in this model.
* Python dicts are modelled as insertion-ordered association lists
  (`List (String × α)`); `dictGet` is dict lookup (first matching key),
  `dictSet` is dict assignment (overwrite in place, append if new) —
  matching CPython's insertion-order-preserving dict semantics.
* Operations that can raise in Python (KeyError on a missing preference
  kind/category, AttributeError on a kind/payload mismatch, TypeError when
  subtracting a string "year") return `Option`/`none` at the failure point.
* Python's `list.sort(key=..., reverse=True)` is a stable descending sort;
  it is modelled with `List.mergeSort` (stable) under the descending
  comparison.
-/
import Mathlib

set_option linter.unusedVariables false

/-- A preference value as accepted by `UserProfile.add_preference`
(`Union[str, int, float]` in the source): either a string or a number.
Equality follows Python `==`: strings never equal numbers, and numbers
compare numerically. -/
inductive PrefValue where
  | str (s : String)
  | num (q : ℚ)
deriving DecidableEq

/-- Python dict lookup `d[k]` on an association list: first entry whose key
matches, `none` models a `KeyError`. -/
def dictGet {α : Type} : List (String × α) → String → Option α
  | [], _ => none
  | (k', v) :: t, k => if k' = k then some v else dictGet t k

/-- Python dict assignment `d[k] = v`: overwrite in place if the key is
present, append at the end otherwise. -/
def dictSet {α : Type} : List (String × α) → String → α → List (String × α)
  | [], k, v => [(k, v)]
  | (k', v') :: t, k, v => if k' = k then (k, v) :: t else (k', v') :: dictSet t k v

/-- Python `s in values` for a string `s` against a list of preference
values: `s == x` is `False` whenever `x` is a number. -/
def strMem (s : String) (vals : List PrefValue) : Bool :=
  vals.any fun v => match v with
    | PrefValue.str t => s = t
    | PrefValue.num _ => false

/-- Python `year in values` for an integer year: numeric comparison against
numeric entries, `False` against strings. -/
def yearMem (y : ℤ) (vals : List PrefValue) : Bool :=
  vals.any fun v => match v with
    | PrefValue.str _ => false
    | PrefValue.num q => (y : ℚ) = q

/-- Python `any(abs(item.year - year) <= 5 for year in user_years)`: lazy
left-to-right evaluation; `abs(int - str)` raises `TypeError`, modelled as
`none`. -/
def anyWithin5 (y : ℤ) : List PrefValue → Option Bool
  | [] => some false
  | PrefValue.num q :: rest =>
      if |(y : ℚ) - q| ≤ 5 then some true else anyWithin5 y rest
  | PrefValue.str _ :: _ => none

/-- All entries of a preference-value list are numeric. -/
def numericVals (vals : List PrefValue) : Bool :=
  vals.all fun v => match v with
    | PrefValue.num _ => true
    | PrefValue.str _ => false

/-- Total version of the within-5-years test, used to describe `anyWithin5`
on numeric lists. -/
def within5 (y : ℤ) (vals : List PrefValue) : Bool :=
  vals.any fun v => match v with
    | PrefValue.num q => |(y : ℚ) - q| ≤ 5
    | PrefValue.str _ => false

/-- `class Movie(EntertainmentItem)` (src/main.py:27-44). -/
structure Movie where
  item_id : String
  title : String
  genre : List String
  year : ℤ
  rating : ℚ
  director : String
  actors : List String
  duration : ℤ
deriving DecidableEq

/-- `class Music(EntertainmentItem)` (src/main.py:46-63). -/
structure Music where
  item_id : String
  title : String
  genre : List String
  year : ℤ
  rating : ℚ
  artist : String
  album : Option String
  duration : Option ℤ
deriving DecidableEq

/-- `class Book(EntertainmentItem)` (src/main.py:65-82). -/
structure Book where
  item_id : String
  title : String
  genre : List String
  year : ℤ
  rating : ℚ
  author : String
  pages : ℤ
  publisher : String
deriving DecidableEq

/-- `class Game(EntertainmentItem)` (src/main.py:84-101). -/
structure Game where
  item_id : String
  title : String
  genre : List String
  year : ℤ
  rating : ℚ
  developer : String
  platforms : List String
  multiplayer : Bool
deriving DecidableEq

/-- An `EntertainmentItem` of one of the four concrete kinds. -/
inductive Item where
  | movie (m : Movie)
  | music (m : Music)
  | book (b : Book)
  | game (g : Game)
deriving DecidableEq

def Item.item_id : Item → String
  | movie m => m.item_id
  | music m => m.item_id
  | book b => b.item_id
  | game g => g.item_id

def Item.title : Item → String
  | movie m => m.title
  | music m => m.title
  | book b => b.title
  | game g => g.title

def Item.genre : Item → List String
  | movie m => m.genre
  | music m => m.genre
  | book b => b.genre
  | game g => g.genre

def Item.year : Item → ℤ
  | movie m => m.year
  | music m => m.year
  | book b => b.year
  | game g => g.year

def Item.rating : Item → ℚ
  | movie m => m.rating
  | music m => m.rating
  | book b => b.rating
  | game g => g.rating

/-- `class UserProfile` state (src/main.py:103-119). `preferences` is a
dict kind → dict category → list of values; `history` is a dict
kind → list of item ids. -/
structure UserProfile where
  user_id : String
  name : String
  preferences : List (String × List (String × List PrefValue))
  history : List (String × List String)
deriving DecidableEq

/-- `UserProfile.__init__` (src/main.py:105-119). -/
def UserProfile.init (user_id name : String) : UserProfile where
  user_id := user_id
  name := name
  preferences :=
    [("movie", [("genres", []), ("actors", []), ("directors", []), ("years", []), ("ratings", [])]),
     ("music", [("genres", []), ("artists", []), ("years", []), ("ratings", [])]),
     ("book", [("genres", []), ("authors", []), ("years", []), ("ratings", [])]),
     ("game", [("genres", []), ("developers", []), ("platforms", []), ("years", []), ("ratings", [])])]
  history := [("movie", []), ("music", []), ("book", []), ("game", [])]

/-- `UserProfile.add_preference` (src/main.py:121-125): no-op unless both
the kind and the category exist; appends the value only if absent. -/
def UserProfile.add_preference (u : UserProfile) (media_type category : String)
    (value : PrefValue) : UserProfile :=
  match dictGet u.preferences media_type with
  | none => u
  | some m =>
    match dictGet m category with
    | none => u
    | some vals =>
      if value ∈ vals then u
      else { u with preferences :=
              dictSet u.preferences media_type (dictSet m category (vals ++ [value])) }

/-- `UserProfile.add_to_history` (src/main.py:127-130). -/
def UserProfile.add_to_history (u : UserProfile) (media_type item_id : String) :
    UserProfile :=
  match dictGet u.history media_type with
  | none => u
  | some l =>
    if item_id ∈ l then u
    else { u with history := dictSet u.history media_type (l ++ [item_id]) }

/-- `class EntertainmentDatabase` state (src/main.py:147-153): four dicts
id → item. -/
structure EntertainmentDatabase where
  movies : List (String × Movie)
  music : List (String × Music)
  books : List (String × Book)
  games : List (String × Game)
deriving DecidableEq

def EntertainmentDatabase.add_movie (db : EntertainmentDatabase) (m : Movie) :
    EntertainmentDatabase :=
  { db with movies := dictSet db.movies m.item_id m }

def EntertainmentDatabase.add_music (db : EntertainmentDatabase) (m : Music) :
    EntertainmentDatabase :=
  { db with music := dictSet db.music m.item_id m }

def EntertainmentDatabase.add_book (db : EntertainmentDatabase) (b : Book) :
    EntertainmentDatabase :=
  { db with books := dictSet db.books b.item_id b }

def EntertainmentDatabase.add_game (db : EntertainmentDatabase) (g : Game) :
    EntertainmentDatabase :=
  { db with games := dictSet db.games g.item_id g }

/-- `EntertainmentDatabase.get_movies` (src/main.py:220-221):
`list(self.movies.values())`, i.e. values in dict insertion order. -/
def EntertainmentDatabase.get_movies (db : EntertainmentDatabase) : List Movie :=
  db.movies.map Prod.snd

def EntertainmentDatabase.get_music (db : EntertainmentDatabase) : List Music :=
  db.music.map Prod.snd

def EntertainmentDatabase.get_books (db : EntertainmentDatabase) : List Book :=
  db.books.map Prod.snd

def EntertainmentDatabase.get_games (db : EntertainmentDatabase) : List Game :=
  db.games.map Prod.snd

/-- The media-kind dispatch at the head of
`RecommendationEngine.get_recommendations` (src/main.py:390-399):
`all_items` stays `[]` for an unrecognized kind. -/
def itemsFor (db : EntertainmentDatabase) (media_type : String) : List Item :=
  if media_type = "movie" then db.get_movies.map Item.movie
  else if media_type = "music" then db.get_music.map Item.music
  else if media_type = "book" then db.get_books.map Item.book
  else if media_type = "game" then db.get_games.map Item.game
  else []

/-- The genre loop of `calculate_match_score` (src/main.py:338-341):
`+0.3` per genre of the item present in the preferred genres, uncapped. -/
def genreBonus (genres : List String) (prefs : List PrefValue) : ℚ :=
  genres.foldl (fun s g => if strMem g prefs then s + 0.3 else s) 0

/-- The year block of `calculate_match_score` (src/main.py:343-348):
`+0.2` on exact membership, `elif` `+0.1` when any preferred year is within
5 (inclusive), else `+0`; the `any(...)` can raise on a non-numeric entry. -/
def yearBonus (y : ℤ) (userYears : List PrefValue) : Option ℚ :=
  if yearMem y userYears then some 0.2
  else (anyWithin5 y userYears).map fun b => if b then 0.1 else 0

/-- The actor loop of `calculate_match_score` (src/main.py:356-359):
`+0.15` per matching actor, uncapped. -/
def actorsBonus (actors : List String) (prefs : List PrefValue) : ℚ :=
  actors.foldl (fun s a => if strMem a prefs then s + 0.15 else s) 0

/-- The platform loop of `calculate_match_score` (src/main.py:376-380):
`+0.2` on the first matching platform, then `break`. -/
def platformsBonus : List String → List PrefValue → ℚ
  | [], _ => 0
  | p :: rest, prefs => if strMem p prefs then 0.2 else platformsBonus rest prefs

/-- Nested preference lookup `user.preferences[k][c]`. -/
def dictGet2 (u : UserProfile) (k c : String) : Option (List PrefValue) :=
  (dictGet u.preferences k).bind fun m => dictGet m c

/-- The kind-specific block of `calculate_match_score` (src/main.py:350-380).
An item whose payload does not fit the selected branch raises
`AttributeError` in Python, modelled as `none`; an unrecognized
`media_type` contributes `0`. -/
def kindBonus (item : Item) (user : UserProfile) (media_type : String) : Option ℚ :=
  if media_type = "movie" then
    match item with
    | Item.movie m => do
      let dirs ← dictGet2 user "movie" "directors"
      let acts ← dictGet2 user "movie" "actors"
      some ((if strMem m.director dirs then 0.2 else 0) + actorsBonus m.actors acts)
    | _ => none
  else if media_type = "music" then
    match item with
    | Item.music m => do
      let arts ← dictGet2 user "music" "artists"
      some (if strMem m.artist arts then 0.4 else 0)
    | _ => none
  else if media_type = "book" then
    match item with
    | Item.book b => do
      let auths ← dictGet2 user "book" "authors"
      some (if strMem b.author auths then 0.4 else 0)
    | _ => none
  else if media_type = "game" then
    match item with
    | Item.game g => do
      let devs ← dictGet2 user "game" "developers"
      let plats ← dictGet2 user "game" "platforms"
      some ((if strMem g.developer devs then 0.2 else 0) + platformsBonus g.platforms plats)
    | _ => none
  else some 0

/-- `RecommendationEngine.calculate_match_score` (src/main.py:330-386):
base `rating / 10`, plus genre, year and kind-specific bonuses, minus a
flat `1.0` when the item id is in the user's history for that kind. -/
def calculate_match_score (item : Item) (user : UserProfile) (media_type : String) :
    Option ℚ := do
  let prefsM ← dictGet user.preferences media_type
  let user_genres ← dictGet prefsM "genres"
  let user_years ← dictGet prefsM "years"
  let yb ← yearBonus item.year user_years
  let kb ← kindBonus item user media_type
  let hist ← dictGet user.history media_type
  some (item.rating / 10 + genreBonus item.genre user_genres + yb + kb -
    (if item.item_id ∈ hist then 1 else 0))

/-- The scored-list comprehension of `get_recommendations`
(src/main.py:402): pairs each item with its match score; a scoring
exception aborts the whole call. -/
def scoreItems (items : List Item) (user : UserProfile) (media_type : String) :
    Option (List (Item × ℚ)) :=
  match items with
  | [] => some []
  | i :: t =>
    match calculate_match_score i user media_type, scoreItems t user media_type with
    | some s, some rest => some ((i, s) :: rest)
    | _, _ => none

/-- Python slice `l[:count]` for an `int` count: a non-negative count takes
that many from the front; a negative count drops the last `|count|`
elements (`stop = max(0, len + count)`). -/
def pyTake {α : Type} (count : ℤ) (l : List α) : List α :=
  if 0 ≤ count then l.take count.toNat
  else l.take (l.length - (-count).toNat)

/-- Descending comparison on scored items used by
`scored_items.sort(key=lambda x: x[1], reverse=True)` (src/main.py:405). -/
def scoreLe (a b : Item × ℚ) : Bool := decide (b.2 ≤ a.2)

/-- `RecommendationEngine.get_recommendations` (src/main.py:388-408):
score every item of the kind, stable-sort descending by score, return the
`[:count]` slice.  (The Python code renders each item with `to_dict()`;
the rendering is faithful to the item's fields, so the model returns the
items themselves.) -/
def RecommendationEngine.get_recommendations (db : EntertainmentDatabase) (user : UserProfile)
    (media_type : String) (count : ℤ) : Option (List Item) := do
  let scored ← scoreItems (itemsFor db media_type) user media_type
  let sorted := scored.mergeSort scoreLe
  some ((pyTake count sorted).map Prod.fst)

/-- The JSON record written by `Movie.to_dict` (src/main.py:36-44) and read
back by `load_from_file` (src/main.py:268-278). -/
structure MovieRec where
  id : String
  title : String
  genre : List String
  year : ℤ
  rating : ℚ
  director : String
  actors : List String
  duration : ℤ
  ty : String
deriving DecidableEq

/-- The JSON record written by `Music.to_dict` (src/main.py:55-63). -/
structure MusicRec where
  id : String
  title : String
  genre : List String
  year : ℤ
  rating : ℚ
  artist : String
  album : Option String
  duration : Option ℤ
  ty : String
deriving DecidableEq

/-- The JSON record written by `Book.to_dict` (src/main.py:74-82). -/
structure BookRec where
  id : String
  title : String
  genre : List String
  year : ℤ
  rating : ℚ
  author : String
  pages : ℤ
  publisher : String
  ty : String
deriving DecidableEq

/-- The JSON record written by `Game.to_dict` (src/main.py:93-101). -/
structure GameRec where
  id : String
  title : String
  genre : List String
  year : ℤ
  rating : ℚ
  developer : String
  platforms : List String
  multiplayer : Bool
  ty : String
deriving DecidableEq

def Movie.to_dict (m : Movie) : MovieRec :=
  ⟨m.item_id, m.title, m.genre, m.year, m.rating, m.director, m.actors, m.duration, "movie"⟩

def Music.to_dict (m : Music) : MusicRec :=
  ⟨m.item_id, m.title, m.genre, m.year, m.rating, m.artist, m.album, m.duration, "music"⟩

def Book.to_dict (b : Book) : BookRec :=
  ⟨b.item_id, b.title, b.genre, b.year, b.rating, b.author, b.pages, b.publisher, "book"⟩

def Game.to_dict (g : Game) : GameRec :=
  ⟨g.item_id, g.title, g.genre, g.year, g.rating, g.developer, g.platforms, g.multiplayer, "game"⟩

/-- The on-disk shape produced by `save_to_file` (src/main.py:244-253):
a mapping with the four kind collections, each id → record.  JSON encoding
of strings, integers, floats, arrays and booleans is faithful, so the file
is modelled by this structure directly. -/
structure DBData where
  movies : List (String × MovieRec)
  music : List (String × MusicRec)
  books : List (String × BookRec)
  games : List (String × GameRec)
deriving DecidableEq

/-- `EntertainmentDatabase.save_to_file` (src/main.py:244-253). -/
def EntertainmentDatabase.save_to_file (db : EntertainmentDatabase) : DBData where
  movies := db.movies.map fun p => (p.1, p.2.to_dict)
  music := db.music.map fun p => (p.1, p.2.to_dict)
  books := db.books.map fun p => (p.1, p.2.to_dict)
  games := db.games.map fun p => (p.1, p.2.to_dict)

/-- `EntertainmentDatabase.load_from_file` on successfully parsed data
(src/main.py:255-319): clears the four collections, then re-adds one item
per record via the `add_*` operations, keyed by the record's `id` field
(the surrounding dict keys are ignored). -/
def EntertainmentDatabase.load_from_file (d : DBData) : EntertainmentDatabase where
  movies := d.movies.foldl
    (fun acc p => dictSet acc p.2.id
      ⟨p.2.id, p.2.title, p.2.genre, p.2.year, p.2.rating, p.2.director, p.2.actors, p.2.duration⟩) []
  music := d.music.foldl
    (fun acc p => dictSet acc p.2.id
      ⟨p.2.id, p.2.title, p.2.genre, p.2.year, p.2.rating, p.2.artist, p.2.album, p.2.duration⟩) []
  books := d.books.foldl
    (fun acc p => dictSet acc p.2.id
      ⟨p.2.id, p.2.title, p.2.genre, p.2.year, p.2.rating, p.2.author, p.2.pages, p.2.publisher⟩) []
  games := d.games.foldl
    (fun acc p => dictSet acc p.2.id
      ⟨p.2.id, p.2.title, p.2.genre, p.2.year, p.2.rating, p.2.developer, p.2.platforms, p.2.multiplayer⟩) []

/-- `class EntertainmentAIAgent` state (src/main.py:434-440): the database,
the users dict and the current-user selection (`None` initially). -/
structure EntertainmentAIAgent where
  db : EntertainmentDatabase
  users : List (String × UserProfile)
  current_user : Option String
deriving DecidableEq

/-- Python truthiness of `self.current_user`: `not None` and `not ""` are
both `True`. -/
def noCurrentUser (cu : Option String) : Bool :=
  match cu with
  | none => true
  | some s => s = ""

/-- `EntertainmentAIAgent.create_user` (src/main.py:466-471): the new id is
`"user_" + str(len(users) + 1)`; the profile is stored under that id
(overwriting any existing entry) and selected as current. -/
def EntertainmentAIAgent.create_user (a : EntertainmentAIAgent) (name : String) :
    String × EntertainmentAIAgent :=
  let user_id := "user_" ++ toString (a.users.length + 1)
  (user_id,
   { a with users := dictSet a.users user_id (UserProfile.init user_id name),
            current_user := some user_id })

/-- `EntertainmentAIAgent.set_current_user` (src/main.py:473-478). -/
def EntertainmentAIAgent.set_current_user (a : EntertainmentAIAgent) (user_id : String) :
    Bool × EntertainmentAIAgent :=
  if (dictGet a.users user_id).isSome then (true, { a with current_user := some user_id })
  else (false, a)

/-- `EntertainmentAIAgent.add_user_preference` (src/main.py:480-486):
returns `False` untouched when no current user; otherwise delegates to the
profile (a `KeyError` on a dangling current user is `none`). -/
def EntertainmentAIAgent.add_user_preference (a : EntertainmentAIAgent)
    (media_type category : String) (value : PrefValue) :
    Option (Bool × EntertainmentAIAgent) :=
  match a.current_user with
  | none => some (false, a)
  | some cu =>
    if cu = "" then some (false, a)
    else
      match dictGet a.users cu with
      | none => none
      | some u =>
        some (true, { a with users := dictSet a.users cu (u.add_preference media_type category value) })

/-- `EntertainmentAIAgent.add_to_history` (src/main.py:488-494). -/
def EntertainmentAIAgent.add_to_history (a : EntertainmentAIAgent)
    (media_type item_id : String) : Option (Bool × EntertainmentAIAgent) :=
  match a.current_user with
  | none => some (false, a)
  | some cu =>
    if cu = "" then some (false, a)
    else
      match dictGet a.users cu with
      | none => none
      | some u =>
        some (true, { a with users := dictSet a.users cu (u.add_to_history media_type item_id) })

/-- Result of the facade's `get_recommendations`: either the structured
error dict `{"error": "No user selected"}` or groups keyed by kind. -/
inductive RecResult where
  | err (msg : String)
  | ok (groups : List (String × List Item))
deriving DecidableEq

/-- `EntertainmentAIAgent.get_recommendations` (src/main.py:496-516). -/
def EntertainmentAIAgent.get_recommendations (a : EntertainmentAIAgent)
    (media_type : Option String) (count : ℤ) : Option RecResult :=
  match a.current_user with
  | none => some (RecResult.err "No user selected")
  | some cu =>
    if cu = "" then some (RecResult.err "No user selected")
    else
      match dictGet a.users cu with
      | none => none
      | some user =>
        match media_type with
        | some mt =>
          if mt = "movie" ∨ mt = "music" ∨ mt = "book" ∨ mt = "game" then do
            let r ← RecommendationEngine.get_recommendations a.db user mt count
            some (RecResult.ok [(mt, r)])
          else some (RecResult.ok [])
        | none => do
          let rm ← RecommendationEngine.get_recommendations a.db user "movie" count
          let rmu ← RecommendationEngine.get_recommendations a.db user "music" count
          let rb ← RecommendationEngine.get_recommendations a.db user "book" count
          let rg ← RecommendationEngine.get_recommendations a.db user "game" count
          some (RecResult.ok [("movies", rm), ("music", rmu), ("books", rb), ("games", rg)])

/-- Python substring test `needle in hay` on character lists. -/
def containsSub (needle : List Char) : List Char → Bool
  | [] => needle.isEmpty
  | c :: t => startsWith needle (c :: t) || containsSub needle t
where
  /-- `needle` is an initial segment of the second list. -/
  startsWith : List Char → List Char → Bool
    | [], _ => true
    | _ :: _, [] => false
    | a :: as, b :: bs => a = b && startsWith as bs

/-- Python `q in s` for strings. -/
def pyInStr (needle hay : String) : Bool := containsSub needle.toList hay.toList

/-- `matches_query` inside `EntertainmentAIAgent.search`
(src/main.py:540-549): the (already lowered) query is a substring of the
lowered title, or of some lowered genre. -/
def matches_query (q : String) (item : Item) : Bool :=
  pyInStr q item.title.toLower || item.genre.any fun g => pyInStr q g.toLower

/-- `EntertainmentAIAgent.search` (src/main.py:535-571): lowercase the
query, filter each requested kind, and include a kind's group only when it
is non-empty. -/
def EntertainmentAIAgent.search (a : EntertainmentAIAgent) (query : String)
    (media_type : Option String) : List (String × List Item) :=
  let q := query.toLower
  (if media_type = some "movie" ∨ media_type = none then
    let r := (a.db.get_movies.map Item.movie).filter (matches_query q)
    if r.isEmpty then [] else [("movies", r)]
   else []) ++
  (if media_type = some "music" ∨ media_type = none then
    let r := (a.db.get_music.map Item.music).filter (matches_query q)
    if r.isEmpty then [] else [("music", r)]
   else []) ++
  (if media_type = some "book" ∨ media_type = none then
    let r := (a.db.get_books.map Item.book).filter (matches_query q)
    if r.isEmpty then [] else [("books", r)]
   else []) ++
  (if media_type = some "game" ∨ media_type = none then
    let r := (a.db.get_games.map Item.game).filter (matches_query q)
    if r.isEmpty then [] else [("games", r)]
   else [])

/-- A profile is scorable for the four recognized kinds: every preference
kind and category consulted by the scorer is present, the `"years"` lists
are numeric (a string entry would make the year check raise `TypeError`),
and every history kind is present.  `UserProfile.init` establishes this
shape. -/
def wfKind (u : UserProfile) (k : String) (extra : List String) : Bool :=
  (match dictGet u.preferences k with
   | none => false
   | some m =>
     (("genres" :: "years" :: extra).all fun c => (dictGet m c).isSome) &&
     (match dictGet m "years" with
      | some ys => numericVals ys
      | none => false)) &&
  (dictGet u.history k).isSome

def UserProfile.wf (u : UserProfile) : Bool :=
  wfKind u "movie" ["directors", "actors"] &&
  wfKind u "music" ["artists"] &&
  wfKind u "book" ["authors"] &&
  wfKind u "game" ["developers", "platforms"]

/-- Replace one preference category's value list (helper for stating the
score-component claims). -/
def setPrefCat (u : UserProfile) (k c : String) (vals : List PrefValue) : UserProfile :=
  match dictGet u.preferences k with
  | none => u
  | some m => { u with preferences := dictSet u.preferences k (dictSet m c vals) }

/-- Replace one kind's history list (helper for stating the history-penalty
claim). -/
def setHistory (u : UserProfile) (k : String) (l : List String) : UserProfile :=
  { u with history := dictSet u.history k l }

/-- Replace an item's genre list, leaving every other field unchanged
(helper for stating the genre-bonus claim). -/
def Item.setGenre : Item → List String → Item
  | Item.movie m, g => Item.movie { m with genre := g }
  | Item.music m, g => Item.music { m with genre := g }
  | Item.book b, g => Item.book { b with genre := g }
  | Item.game gm, g => Item.game { gm with genre := g }

/-- The media kind an item belongs to. -/
def kindOf : Item → String
  | Item.movie _ => "movie"
  | Item.music _ => "music"
  | Item.book _ => "book"
  | Item.game _ => "game"

/-- The score actually attached to an item by `get_recommendations` (total
version; it agrees with `calculate_match_score` whenever that is defined). -/
def scOf (u : UserProfile) (k : String) (i : Item) : ℚ :=
  (calculate_match_score i u k).getD 0

/- Concrete fixtures used by the witnesses. -/

def movieA : Movie := ⟨"m1", "Alpha", ["Action"], 2010, 8, "DirA", ["ActA"], 100⟩

def movieB : Movie := ⟨"m2", "Beta", ["Drama"], 1990, 6, "DirB", ["ActB"], 90⟩

def movieC : Movie := ⟨"m3", "Gamma", ["Action", "Sci-Fi"], 2011, 9, "DirC", ["ActC", "ActA"], 95⟩

def musicA : Music := ⟨"mu1", "Song", ["Rock"], 1975, 9, "Band", some "Album", some 354⟩

def bookA : Book := ⟨"b1", "Tome", ["Fantasy"], 1954, 9, "Writer", 1178, "House"⟩

def gameA : Game := ⟨"g1", "Quest", ["Action"], 2017, 9, "Studio", ["PC", "Switch"], false⟩

def testDb : EntertainmentDatabase :=
  ((((((⟨[], [], [], []⟩ : EntertainmentDatabase).add_movie movieA).add_movie movieB).add_movie
      movieC).add_music musicA).add_book bookA).add_game gameA

def testUser : UserProfile :=
  ((UserProfile.init "u1" "Ann").add_preference "movie" "genres" (PrefValue.str "Action")).add_preference
    "movie" "actors" (PrefValue.str "ActA")

def testUserHist : UserProfile := testUser.add_to_history "movie" "m1"

def userC2 : UserProfile :=
  (UserProfile.init "u2" "B").add_preference "movie" "years" (PrefValue.num 2012)

def userC3 : UserProfile :=
  ((UserProfile.init "u3" "C").add_preference "movie" "genres"
    (PrefValue.str "Action")).add_preference "movie" "genres" (PrefValue.str "Sci-Fi")

def userC4 : UserProfile :=
  (UserProfile.init "u4" "D").add_preference "game" "platforms" (PrefValue.str "PC")

def movieHi : Movie := ⟨"m1", "Top", ["Action", "Sci-Fi"], 2010, 9, "D1", [], 100⟩

def movieLo : Movie := ⟨"m2", "Low", ["Romance"], 1990, 3, "D2", [], 90⟩

def dbC5 : EntertainmentDatabase :=
  ((⟨[], [], [], []⟩ : EntertainmentDatabase).add_movie movieHi).add_movie movieLo

def userC5 : UserProfile :=
  (((UserProfile.init "u5" "E").add_preference "movie" "genres"
    (PrefValue.str "Action")).add_preference "movie" "genres"
    (PrefValue.str "Sci-Fi")).add_to_history "movie" "m1"

def agentC7 : EntertainmentAIAgent :=
  ⟨testDb, [("u1", UserProfile.init "u1" "Ann")], none⟩

def agentC9 : EntertainmentAIAgent :=
  ⟨⟨[], [], [], []⟩, [("user_2", UserProfile.init "user_2" "Alice")], none⟩

def agentC9b : EntertainmentAIAgent := ⟨⟨[], [], [], []⟩, [], none⟩

/-! ### Association-list lemmas -/

theorem dictGet_dictSet_self {α : Type} (l : List (String × α)) (k : String) (v : α) :
    dictGet (dictSet l k v) k = some v := by
  induction l with
  | nil => simp [dictSet, dictGet]
  | cons p t ih =>
    by_cases h : p.1 = k
    · simp [dictSet, h, dictGet]
    · simp [dictSet, h, dictGet, ih]

theorem dictGet_dictSet_ne {α : Type} (l : List (String × α)) (k k' : String) (v : α)
    (h : k' ≠ k) : dictGet (dictSet l k v) k' = dictGet l k' := by
  induction l with
  | nil => simp [dictSet, dictGet, Ne.symm h]
  | cons p t ih =>
    obtain ⟨k1, v1⟩ := p
    by_cases hp : k1 = k
    · subst hp
      simp [dictSet, dictGet, Ne.symm h]
    · simp [dictSet, dictGet, hp, ih]

theorem dictSet_eq_append {α : Type} (l : List (String × α)) (k : String) (v : α)
    (h : k ∉ l.map Prod.fst) : dictSet l k v = l ++ [(k, v)] := by
  induction l with
  | nil => rfl
  | cons p t ih =>
    obtain ⟨k1, v1⟩ := p
    simp only [List.map_cons, List.mem_cons, not_or] at h
    simp [dictSet, Ne.symm h.1, ih h.2]

theorem foldl_dictSet_generic {α : Type} (key : String × α → String) (val : String × α → α) :
    ∀ (l acc : List (String × α)),
    ((acc ++ l).map Prod.fst).Nodup →
    (∀ p ∈ l, key p = p.1 ∧ val p = p.2) →
    l.foldl (fun a p => dictSet a (key p) (val p)) acc = acc ++ l := by
  intro l
  induction l with
  | nil => intro acc _ _; simp
  | cons p t ih =>
    intro acc hnd hkv
    obtain ⟨hk, hv⟩ := hkv p (by simp)
    have hp1 : p.1 ∉ acc.map Prod.fst := by
      intro hmem
      rw [List.map_append, List.nodup_append] at hnd
      exact hnd.2.2 hmem (by simp)
    have hstep : dictSet acc (key p) (val p) = acc ++ [p] := by
      rw [hk, hv, dictSet_eq_append acc p.1 p.2 hp1]
    have hnd' : (((acc ++ [p]) ++ t).map Prod.fst).Nodup := by
      simpa [List.append_assoc] using hnd
    calc (p :: t).foldl (fun a q => dictSet a (key q) (val q)) acc
        = t.foldl (fun a q => dictSet a (key q) (val q)) (acc ++ [p]) := by
          rw [List.foldl_cons, hstep]
      _ = (acc ++ [p]) ++ t := ih (acc ++ [p]) hnd' (fun q hq => hkv q (by simp [hq]))
      _ = acc ++ p :: t := by simp

/-! ### Scorer component lemmas -/

theorem anyWithin5_numeric (y : ℤ) :
    ∀ vals : List PrefValue, numericVals vals = true →
    anyWithin5 y vals = some (within5 y vals) := by
  intro vals h
  induction vals with
  | nil => rfl
  | cons v t ih =>
    cases v with
    | str s => simp [numericVals] at h
    | num q =>
      simp only [numericVals, List.all_cons, Bool.and_eq_true] at h
      by_cases hle : |(y : ℚ) - q| ≤ 5
      · simp [anyWithin5, within5, hle]
      · simp [anyWithin5, within5, hle, ih h.2]

theorem yearBonus_eq_of_numeric (y : ℤ) (ys : List PrefValue) (h : numericVals ys = true) :
    yearBonus y ys =
      some (if yearMem y ys then 0.2 else if within5 y ys then 0.1 else 0) := by
  unfold yearBonus
  by_cases hm : yearMem y ys
  · simp [hm]
  · simp [hm, anyWithin5_numeric y ys h]

theorem foldl_bonus (c : ℚ) (p : String → Bool) :
    ∀ (l : List String) (a : ℚ),
    l.foldl (fun s g => if p g then s + c else s) a = a + c * l.countP p := by
  intro l
  induction l with
  | nil => intro a; simp
  | cons g t ih =>
    intro a
    simp only [List.foldl_cons, List.countP_cons]
    by_cases h : p g
    · rw [if_pos h, ih]
      simp [h]
      ring
    · rw [if_neg h, ih]
      simp [h]

theorem genreBonus_eq (genres : List String) (prefs : List PrefValue) :
    genreBonus genres prefs = 0.3 * genres.countP (fun g => strMem g prefs) := by
  simpa [genreBonus] using foldl_bonus 0.3 (fun g => strMem g prefs) genres 0

theorem actorsBonus_eq (actors : List String) (prefs : List PrefValue) :
    actorsBonus actors prefs = 0.15 * actors.countP (fun a => strMem a prefs) := by
  simpa [actorsBonus] using foldl_bonus 0.15 (fun a => strMem a prefs) actors 0

theorem platformsBonus_eq (ps : List String) (prefs : List PrefValue) :
    platformsBonus ps prefs = if ps.any (fun p => strMem p prefs) then 0.2 else 0 := by
  induction ps with
  | nil => rfl
  | cons p t ih =>
    by_cases h : strMem p prefs <;> simp [platformsBonus, h, ih]

theorem calculate_match_score_unfold (item : Item) (u : UserProfile) (k : String) :
    calculate_match_score item u k =
      (dictGet u.preferences k).bind fun prefsM =>
      (dictGet prefsM "genres").bind fun gs =>
      (dictGet prefsM "years").bind fun ys =>
      (yearBonus item.year ys).bind fun yb =>
      (kindBonus item u k).bind fun kb =>
      (dictGet u.history k).bind fun hist =>
      some (item.rating / 10 + genreBonus item.genre gs + yb + kb -
        (if item.item_id ∈ hist then 1 else 0)) := rfl

/-! ### Well-formedness and totality of the scorer -/

theorem wfKind_spec (u : UserProfile) (k : String) (extra : List String)
    (h : wfKind u k extra = true) :
    ∃ m, dictGet u.preferences k = some m ∧
      (∀ c ∈ ("genres" :: "years" :: extra), (dictGet m c).isSome = true) ∧
      (∃ ys, dictGet m "years" = some ys ∧ numericVals ys = true) ∧
      (dictGet u.history k).isSome = true := by
  cases hm : dictGet u.preferences k with
  | none => simp [wfKind, hm] at h
  | some m =>
    simp only [wfKind, hm, Bool.and_eq_true] at h
    obtain ⟨⟨hall, hys⟩, hhist⟩ := h
    cases hy : dictGet m "years" with
    | none => rw [hy] at hys; simp at hys
    | some ys =>
      rw [hy] at hys
      exact ⟨m, rfl, by simpa [List.all_eq_true] using hall, ⟨ys, hy, hys⟩, hhist⟩

theorem wf_four (u : UserProfile) (h : u.wf = true) :
    wfKind u "movie" ["directors", "actors"] = true ∧
    wfKind u "music" ["artists"] = true ∧
    wfKind u "book" ["authors"] = true ∧
    wfKind u "game" ["developers", "platforms"] = true := by
  simpa [UserProfile.wf, Bool.and_eq_true, and_assoc] using h

theorem kindBonus_isSome (item : Item) (u : UserProfile) (hwf : u.wf = true) :
    (kindBonus item u (kindOf item)).isSome = true := by
  cases item with
  | movie mv =>
    obtain ⟨m, hmp, hall, -, -⟩ := wfKind_spec u "movie" _ (wf_four u hwf).1
    obtain ⟨ds, hds⟩ := Option.isSome_iff_exists.mp (hall "directors" (by simp))
    obtain ⟨as, has⟩ := Option.isSome_iff_exists.mp (hall "actors" (by simp))
    simp [kindBonus, kindOf, dictGet2, hmp, hds, has]
  | music mv =>
    obtain ⟨m, hmp, hall, -, -⟩ := wfKind_spec u "music" _ (wf_four u hwf).2.1
    obtain ⟨ar, har⟩ := Option.isSome_iff_exists.mp (hall "artists" (by simp))
    simp [kindBonus, kindOf, dictGet2, hmp, har]
  | book bv =>
    obtain ⟨m, hmp, hall, -, -⟩ := wfKind_spec u "book" _ (wf_four u hwf).2.2.1
    obtain ⟨au, hau⟩ := Option.isSome_iff_exists.mp (hall "authors" (by simp))
    simp [kindBonus, kindOf, dictGet2, hmp, hau]
  | game gv =>
    obtain ⟨m, hmp, hall, -, -⟩ := wfKind_spec u "game" _ (wf_four u hwf).2.2.2
    obtain ⟨dv, hdv⟩ := Option.isSome_iff_exists.mp (hall "developers" (by simp))
    obtain ⟨pl, hpl⟩ := Option.isSome_iff_exists.mp (hall "platforms" (by simp))
    simp [kindBonus, kindOf, dictGet2, hmp, hdv, hpl]

theorem wfKind_of_kindOf (u : UserProfile) (hwf : u.wf = true) (item : Item) :
    ∃ extra, wfKind u (kindOf item) extra = true := by
  obtain ⟨h1, h2, h3, h4⟩ := wf_four u hwf
  cases item <;> exact ⟨_, by assumption⟩

theorem calculate_match_score_isSome (item : Item) (u : UserProfile) (k : String)
    (extra : List String) (hwfk : wfKind u k extra = true)
    (hkb : (kindBonus item u k).isSome = true) :
    ∃ q, calculate_match_score item u k = some q := by
  obtain ⟨m, hmp, hall, ⟨ys, hys, hnum⟩, hhist⟩ := wfKind_spec u k extra hwfk
  obtain ⟨gs, hgs⟩ := Option.isSome_iff_exists.mp (hall "genres" (by simp))
  obtain ⟨kb, hkb'⟩ := Option.isSome_iff_exists.mp hkb
  obtain ⟨hist, hh⟩ := Option.isSome_iff_exists.mp hhist
  rw [calculate_match_score_unfold]
  simp [hmp, hgs, hys, yearBonus_eq_of_numeric item.year ys hnum, hkb', hh]

theorem score_some_of_wf (u : UserProfile) (hwf : u.wf = true) (item : Item) :
    calculate_match_score item u (kindOf item) = some (scOf u (kindOf item) item) := by
  obtain ⟨extra, hwfk⟩ := wfKind_of_kindOf u hwf item
  obtain ⟨q, hq⟩ := calculate_match_score_isSome item u (kindOf item) extra hwfk
    (kindBonus_isSome item u hwf)
  simp [scOf, hq]

theorem kindOf_mem_itemsFor (db : EntertainmentDatabase) (k : String) (i : Item)
    (h : i ∈ itemsFor db k) : kindOf i = k := by
  by_cases h1 : k = "movie"
  · subst h1; simp [itemsFor] at h; obtain ⟨m, -, rfl⟩ := h; rfl
  · by_cases h2 : k = "music"
    · subst h2; simp [itemsFor, *] at h; obtain ⟨m, -, rfl⟩ := h; rfl
    · by_cases h3 : k = "book"
      · subst h3; simp [itemsFor, *] at h; obtain ⟨m, -, rfl⟩ := h; rfl
      · by_cases h4 : k = "game"
        · subst h4; simp [itemsFor, *] at h; obtain ⟨m, -, rfl⟩ := h; rfl
        · simp [itemsFor, *] at h

theorem scoreItems_total (items : List Item) (u : UserProfile) (k : String)
    (h : ∀ i ∈ items, calculate_match_score i u k = some (scOf u k i)) :
    scoreItems items u k = some (items.map fun i => (i, scOf u k i)) := by
  induction items with
  | nil => rfl
  | cons i t ih =>
    have hq := h i (by simp)
    simp [scoreItems, hq, ih (fun j hj => h j (by simp [hj]))]

/-! ### Sorting lemmas -/

theorem scoreLe_trans (a b c : Item × ℚ) (h1 : scoreLe a b) (h2 : scoreLe b c) :
    scoreLe a c := by
  simp only [scoreLe, decide_eq_true_eq] at h1 h2 ⊢
  exact le_trans h2 h1

theorem scoreLe_total (a b : Item × ℚ) : scoreLe a b || scoreLe b a := by
  simp only [scoreLe, Bool.or_eq_true, decide_eq_true_eq]
  exact le_total b.2 a.2

theorem mergeSort_filter_score (L : List (Item × ℚ)) (q : ℚ) :
    (L.mergeSort scoreLe).filter (fun x => decide (x.2 = q)) =
      L.filter (fun x => decide (x.2 = q)) := by
  have hperm : List.Perm ((L.mergeSort scoreLe).filter (fun x => decide (x.2 = q)))
      (L.filter (fun x => decide (x.2 = q))) :=
    (List.mergeSort_perm L scoreLe).filter _
  have hpw : (L.filter (fun x => decide (x.2 = q))).Pairwise (fun a b => scoreLe a b = true) := by
    apply List.pairwise_of_forall_mem_list
    intro a ha b hb
    have ha2 : a.2 = q := by simpa using List.of_mem_filter ha
    have hb2 : b.2 = q := by simpa using List.of_mem_filter hb
    simp [scoreLe, ha2, hb2]
  have hsub : List.Sublist (L.filter (fun x => decide (x.2 = q))) (L.mergeSort scoreLe) :=
    List.sublist_mergeSort scoreLe_trans scoreLe_total hpw (List.filter_sublist L)
  have hsub2 : List.Sublist (L.filter (fun x => decide (x.2 = q)))
      ((L.mergeSort scoreLe).filter (fun x => decide (x.2 = q))) := by
    have h2 := hsub.filter (fun x => decide (x.2 = q))
    rwa [List.filter_eq_self.mpr (fun a ha => (List.mem_filter.mp ha).2)] at h2
  exact (hsub2.eq_of_length hperm.length_eq.symm).symm

theorem recs_core (db : EntertainmentDatabase) (u : UserProfile) (k : String)
    (hwf : u.wf = true) (c : ℤ) :
    RecommendationEngine.get_recommendations db u k c =
      some ((pyTake c (((itemsFor db k).map (fun i => (i, scOf u k i))).mergeSort
        scoreLe)).map Prod.fst) := by
  have htotal : ∀ i ∈ itemsFor db k, calculate_match_score i u k = some (scOf u k i) := by
    intro i hi
    have hki := kindOf_mem_itemsFor db k i hi
    rw [← hki]
    exact score_some_of_wf u hwf i
  have hsc := scoreItems_total (itemsFor db k) u k htotal
  simp [RecommendationEngine.get_recommendations, hsc]

/-- C1: for every well-formed user profile, recognized kind and
non-negative count, `get_recommendations` scores every catalog item of
that kind with the match score, stable-sorts descending by score
(each score class keeps the catalog iteration order), and returns the top
`count` items (fewer when the catalog has fewer; `count = 0` yields the
empty sequence). -/
theorem c1_recommendations_sorted_stable_top
    (db : EntertainmentDatabase) (u : UserProfile) (k : String) (c : ℤ)
    (hwf : u.wf = true)
    (hk : k = "movie" ∨ k = "music" ∨ k = "book" ∨ k = "game")
    (hc : 0 ≤ c) :
    ∃ l : List Item,
      RecommendationEngine.get_recommendations db u k c = some l ∧
      (∀ i ∈ itemsFor db k, calculate_match_score i u k = some (scOf u k i)) ∧
      l.length = min c.toNat (itemsFor db k).length ∧
      (c = 0 → l = []) ∧
      ∃ sorted : List Item,
        List.Perm sorted (itemsFor db k) ∧
        sorted.Pairwise (fun a b => scOf u k b ≤ scOf u k a) ∧
        (∀ q : ℚ, sorted.filter (fun i => decide (scOf u k i = q)) =
          (itemsFor db k).filter (fun i => decide (scOf u k i = q))) ∧
        l = sorted.take c.toNat := by
  have htotal : ∀ i ∈ itemsFor db k, calculate_match_score i u k = some (scOf u k i) := by
    intro i hi
    have hki := kindOf_mem_itemsFor db k i hi
    rw [← hki]
    exact score_some_of_wf u hwf i
  set L := (itemsFor db k).map (fun i => (i, scOf u k i)) with hL
  set S := L.mergeSort scoreLe with hS
  have hrec := recs_core db u k hwf c
  have hmemL : ∀ x ∈ L, x.2 = scOf u k x.1 := by
    intro x hx
    obtain ⟨i, hi, rfl⟩ := List.mem_map.mp hx
    rfl
  have hmemS : ∀ x ∈ S, x.2 = scOf u k x.1 := by
    intro x hx
    exact hmemL x (List.mem_mergeSort.mp hx)
  have hfst : L.map Prod.fst = itemsFor db k := by
    rw [hL, List.map_map]
    exact List.map_id _
  have hpt : pyTake c S = S.take c.toNat := by simp [pyTake, hc]
  refine ⟨_, hrec, htotal, ?_, ?_, S.map Prod.fst, ?_, ?_, ?_, ?_⟩
  · rw [hpt]
    simp [hS, hL]
  · intro h0
    subst h0
    simp [pyTake]
  · have hp : List.Perm (S.map Prod.fst) (L.map Prod.fst) :=
      (List.mergeSort_perm L scoreLe).map _
    rwa [hfst] at hp
  · have hpw0 : S.Pairwise (fun a b => scoreLe a b = true) :=
      List.sorted_mergeSort scoreLe_trans scoreLe_total L
    refine List.pairwise_map.mpr (List.Pairwise.imp_of_mem ?_ hpw0)
    intro a b ha hb hle
    have h2 : b.2 ≤ a.2 := by simpa [scoreLe] using hle
    rwa [hmemS a ha, hmemS b hb] at h2
  · intro q
    have e1 : (S.map Prod.fst).filter (fun i => decide (scOf u k i = q)) =
        (S.filter (fun x => decide (x.2 = q))).map Prod.fst := by
      rw [List.filter_map]
      congr 1
      apply List.filter_congr
      intro x hx
      simp [Function.comp, hmemS x hx]
    have e2 : (itemsFor db k).filter (fun i => decide (scOf u k i = q)) =
        (L.filter (fun x => decide (x.2 = q))).map Prod.fst := by
      rw [← hfst, List.filter_map]
      congr 1
      apply List.filter_congr
      intro x hx
      simp [Function.comp, hmemL x hx]
    rw [e1, e2, hS, mergeSort_filter_score]
  · rw [hpt, List.map_take]

/-- Witness for C1: concrete database and profile, count 2 over a
3-movie catalog. -/
theorem c1_witness :
    testUser.wf = true ∧ ((0 : ℤ) ≤ 2) ∧
    ∃ l : List Item,
      RecommendationEngine.get_recommendations testDb testUser "movie" 2 = some l ∧
      l.length = 2 := by
  refine ⟨by decide, by decide, ?_⟩
  obtain ⟨l, hl, -, hlen, -⟩ :=
    c1_recommendations_sorted_stable_top testDb testUser "movie" 2 (by decide) (Or.inl rfl)
      (by decide)
  refine ⟨l, hl, ?_⟩
  rw [hlen]
  decide

/-- C10: with a negative count `c` and an `n`-item catalog,
`get_recommendations` returns the first `max 0 (n + c)` items of the
descending-sorted list (Python slice semantics, dropping the last `|c|`
items) — the `count = n` result truncated to `(n + c).toNat` elements —
rather than the empty sequence or a count clamped to `[0, n]`. -/
theorem c10_negative_count_slice
    (db : EntertainmentDatabase) (u : UserProfile) (k : String) (c : ℤ)
    (hwf : u.wf = true)
    (hk : k = "movie" ∨ k = "music" ∨ k = "book" ∨ k = "game")
    (hc : c < 0) :
    ∃ full l : List Item,
      RecommendationEngine.get_recommendations db u k ((itemsFor db k).length : ℤ) =
        some full ∧
      RecommendationEngine.get_recommendations db u k c = some l ∧
      full.length = (itemsFor db k).length ∧
      full.Pairwise (fun a b => scOf u k b ≤ scOf u k a) ∧
      l = full.take (((itemsFor db k).length : ℤ) + c).toNat ∧
      l.length = (((itemsFor db k).length : ℤ) + c).toNat := by
  set L := (itemsFor db k).map (fun i => (i, scOf u k i)) with hL
  set S := L.mergeSort scoreLe with hS
  have hlenS : S.length = (itemsFor db k).length := by simp [hS, hL]
  have hfull := recs_core db u k hwf ((itemsFor db k).length : ℤ)
  have hneg := recs_core db u k hwf c
  have hc1 : (0 : ℤ) ≤ ((itemsFor db k).length : ℤ) := Int.natCast_nonneg _
  have hptn : pyTake ((itemsFor db k).length : ℤ) S = S := by
    unfold pyTake
    rw [if_pos hc1]
    have h1 : ((itemsFor db k).length : ℤ).toNat = S.length := by
      rw [hlenS]
      omega
    rw [h1, List.take_length]
  have hptc : pyTake c S = S.take (((itemsFor db k).length : ℤ) + c).toNat := by
    unfold pyTake
    rw [if_neg (by omega : ¬ (0 : ℤ) ≤ c)]
    congr 1
    rw [hlenS]
    omega
  refine ⟨S.map Prod.fst, (pyTake c S).map Prod.fst, ?_, hneg, ?_, ?_, ?_, ?_⟩
  · rw [hfull, hptn]
  · simp [hlenS]
  · have hmemS : ∀ x ∈ S, x.2 = scOf u k x.1 := by
      intro x hx
      obtain ⟨i, hi, rfl⟩ := List.mem_map.mp (List.mem_mergeSort.mp hx)
      rfl
    have hpw0 : S.Pairwise (fun a b => scoreLe a b = true) :=
      List.sorted_mergeSort scoreLe_trans scoreLe_total L
    refine List.pairwise_map.mpr (List.Pairwise.imp_of_mem ?_ hpw0)
    intro a b ha hb hle
    have h2 : b.2 ≤ a.2 := by simpa [scoreLe] using hle
    rwa [hmemS a ha, hmemS b hb] at h2
  · rw [hptc, List.map_take]
  · rw [hptc]
    simp [hlenS]
    omega

/-- Witness for C10: count `-1` over the 3-movie catalog returns the first
2 items of the sorted list. -/
theorem c10_witness :
    ((-1 : ℤ) < 0) ∧
    ∃ full l : List Item,
      RecommendationEngine.get_recommendations testDb testUser "movie"
        ((itemsFor testDb "movie").length : ℤ) = some full ∧
      RecommendationEngine.get_recommendations testDb testUser "movie" (-1) = some l ∧
      l.length = 2 := by
  refine ⟨by decide, ?_⟩
  obtain ⟨full, l, hf, hl, -, -, -, hlen⟩ :=
    c10_negative_count_slice testDb testUser "movie" (-1) (by decide) (Or.inl rfl) (by decide)
  refine ⟨full, l, hf, hl, ?_⟩
  rw [hlen]
  decide

/-! ### Invariance lemmas for the score components -/

theorem setPrefCat_preferences (u : UserProfile) (k0 cat : String) (vals : List PrefValue)
    (m : List (String × List PrefValue)) (hm : dictGet u.preferences k0 = some m) :
    (setPrefCat u k0 cat vals).preferences = dictSet u.preferences k0 (dictSet m cat vals) := by
  unfold setPrefCat
  rw [hm]

theorem setPrefCat_history (u : UserProfile) (k0 cat : String) (vals : List PrefValue) :
    (setPrefCat u k0 cat vals).history = u.history := by
  unfold setPrefCat
  cases dictGet u.preferences k0 <;> rfl

theorem dictGet2_setPrefCat (u : UserProfile) (k0 cat : String) (vals : List PrefValue)
    (K c : String) (hc : c ≠ cat) :
    dictGet2 (setPrefCat u k0 cat vals) K c = dictGet2 u K c := by
  cases hm : dictGet u.preferences k0 with
  | none =>
    unfold setPrefCat
    rw [hm]
  | some m =>
    unfold dictGet2
    rw [setPrefCat_preferences u k0 cat vals m hm]
    by_cases hK : K = k0
    · subst hK
      rw [dictGet_dictSet_self, hm]
      simp [dictGet_dictSet_ne _ _ _ _ hc]
    · rw [dictGet_dictSet_ne _ _ _ _ hK]

theorem kindBonus_ext (item : Item) (u v : UserProfile) (k : String)
    (h : ∀ c ∈ ["directors", "actors", "artists", "authors", "developers", "platforms"],
      dictGet2 u k c = dictGet2 v k c) :
    kindBonus item u k = kindBonus item v k := by
  by_cases h1 : k = "movie"
  · subst h1
    cases item <;> simp [kindBonus, h "directors" (by simp), h "actors" (by simp)]
  · by_cases h2 : k = "music"
    · subst h2
      cases item <;> simp [kindBonus, h "artists" (by simp)]
    · by_cases h3 : k = "book"
      · subst h3
        cases item <;> simp [kindBonus, h "authors" (by simp)]
      · by_cases h4 : k = "game"
        · subst h4
          cases item <;> simp [kindBonus, h "developers" (by simp), h "platforms" (by simp)]
        · simp [kindBonus, h1, h2, h3, h4]

theorem kindBonus_setPrefCat (item : Item) (u : UserProfile) (k k0 cat : String)
    (vals : List PrefValue) (hcat : cat = "years" ∨ cat = "genres") :
    kindBonus item (setPrefCat u k0 cat vals) k = kindBonus item u k := by
  apply kindBonus_ext
  intro c hc
  apply dictGet2_setPrefCat
  have hc6 : c = "directors" ∨ c = "actors" ∨ c = "artists" ∨ c = "authors" ∨
      c = "developers" ∨ c = "platforms" := by simpa using hc
  rcases hcat with rfl | rfl <;>
    rcases hc6 with rfl | rfl | rfl | rfl | rfl | rfl <;> decide

theorem item_id_setGenre (item : Item) (g : List String) :
    (item.setGenre g).item_id = item.item_id := by
  cases item <;> rfl

theorem year_setGenre (item : Item) (g : List String) :
    (item.setGenre g).year = item.year := by
  cases item <;> rfl

theorem rating_setGenre (item : Item) (g : List String) :
    (item.setGenre g).rating = item.rating := by
  cases item <;> rfl

theorem genre_setGenre (item : Item) (g : List String) :
    (item.setGenre g).genre = g := by
  cases item <;> rfl

theorem kindBonus_setGenre (item : Item) (g : List String) (u : UserProfile) (k : String) :
    kindBonus (item.setGenre g) u k = kindBonus item u k := by
  cases item <;> rfl

theorem kindBonus_setHistory (item : Item) (u : UserProfile) (k0 : String)
    (l : List String) (k : String) :
    kindBonus item (setHistory u k0 l) k = kindBonus item u k := rfl

/-- C2: the year contribution to the match score is exactly `+0.2` when the
item's year is a member of the kind's preferred years, otherwise exactly
`+0.1` when some preferred year is within 5 years inclusive, otherwise `0`;
an exact match never also receives the within-5 bonus (the contribution is
never `0.3`).  Stated as the difference against the same profile with an
empty preferred-years list. -/
theorem c2_year_bonus_exact_or_near
    (item : Item) (u : UserProfile) (k : String) (m : List (String × List PrefValue))
    (ys : List PrefValue) (s0 : ℚ)
    (hm : dictGet u.preferences k = some m)
    (hy : dictGet m "years" = some ys)
    (hnum : numericVals ys = true)
    (h0 : calculate_match_score item (setPrefCat u k "years" []) k = some s0) :
    calculate_match_score item u k =
      some (s0 + (if yearMem item.year ys then 0.2
        else if within5 item.year ys then 0.1 else 0)) := by
  have hm0 : dictGet (setPrefCat u k "years" []).preferences k = some (dictSet m "years" []) := by
    rw [setPrefCat_preferences u k "years" [] m hm, dictGet_dictSet_self]
  have hkb0 : kindBonus item (setPrefCat u k "years" []) k = kindBonus item u k :=
    kindBonus_setPrefCat item u k k "years" [] (Or.inl rfl)
  have hh0 : (setPrefCat u k "years" []).history = u.history := setPrefCat_history u k "years" []
  have hyb0 : yearBonus item.year [] = some 0 := rfl
  rw [calculate_match_score_unfold] at h0 ⊢
  rw [hm0] at h0
  rw [hm]
  simp only [Option.some_bind] at h0 ⊢
  rw [dictGet_dictSet_ne m "years" "genres" [] (by decide)] at h0
  cases hg : dictGet m "genres" with
  | none =>
    rw [hg] at h0
    simp at h0
  | some gs =>
    rw [hg] at h0
    simp only [Option.some_bind] at h0 ⊢
    rw [dictGet_dictSet_self] at h0
    simp only [Option.some_bind] at h0
    rw [hyb0] at h0
    simp only [Option.some_bind] at h0
    rw [hkb0, hh0] at h0
    rw [hy]
    simp only [Option.some_bind]
    rw [yearBonus_eq_of_numeric item.year ys hnum]
    simp only [Option.some_bind]
    cases hkb : kindBonus item u k with
    | none =>
      rw [hkb] at h0
      simp at h0
    | some kb =>
      rw [hkb] at h0
      simp only [Option.some_bind] at h0 ⊢
      cases hh : dictGet u.history k with
      | none =>
        rw [hh] at h0
        simp at h0
      | some hist =>
        rw [hh] at h0
        simp only [Option.some_bind, Option.some.injEq] at h0 ⊢
        rw [← h0]
        ring

unseal Rat.add Rat.mul Rat.sub Rat.inv Rat.ofScientific in
/-- Witness for C2: `movieA` (year 2010) against a profile preferring year
2012 — no exact match, within 5 years, so exactly `+0.1` over the
no-years score `0.8`. -/
theorem c2_witness :
    calculate_match_score (Item.movie movieA) userC2 "movie" = some 0.9 := by
  have h := c2_year_bonus_exact_or_near (Item.movie movieA) userC2 "movie" _ _ 0.8
    rfl rfl (by decide) (by decide)
  rw [h]
  decide

/-- C3: the genre bonus accumulates `+0.3` per matching genre entry with no
cap: an item whose genre list has exactly `n` entries present in the
kind's preferred genres scores exactly `0.3 * n` more than the otherwise
identical item whose genre list has zero matching entries. -/
theorem c3_genre_bonus_uncapped
    (item : Item) (u : UserProfile) (k : String) (m : List (String × List PrefValue))
    (gs : List PrefValue) (g0 : List String) (s0 : ℚ)
    (hm : dictGet u.preferences k = some m)
    (hg : dictGet m "genres" = some gs)
    (h0count : g0.countP (fun g => strMem g gs) = 0)
    (h0 : calculate_match_score (item.setGenre g0) u k = some s0) :
    calculate_match_score item u k =
      some (s0 + 0.3 * item.genre.countP (fun g => strMem g gs)) := by
  rw [calculate_match_score_unfold] at h0 ⊢
  rw [hm] at h0 ⊢
  simp only [Option.some_bind] at h0 ⊢
  rw [hg] at h0 ⊢
  simp only [Option.some_bind] at h0 ⊢
  rw [year_setGenre] at h0
  cases hy2 : dictGet m "years" with
  | none =>
    rw [hy2] at h0
    simp at h0
  | some ys =>
    rw [hy2] at h0
    simp only [Option.some_bind] at h0 ⊢
    cases hyb : yearBonus item.year ys with
    | none =>
      rw [hyb] at h0
      simp at h0
    | some yb =>
      rw [hyb] at h0
      simp only [Option.some_bind] at h0 ⊢
      rw [kindBonus_setGenre] at h0
      cases hkb : kindBonus item u k with
      | none =>
        rw [hkb] at h0
        simp at h0
      | some kb =>
        rw [hkb] at h0
        simp only [Option.some_bind] at h0 ⊢
        cases hh : dictGet u.history k with
        | none =>
          rw [hh] at h0
          simp at h0
        | some hist =>
          rw [hh] at h0
          simp only [Option.some_bind, Option.some.injEq] at h0 ⊢
          rw [rating_setGenre, item_id_setGenre, genre_setGenre] at h0
          rw [genreBonus_eq, h0count] at h0
          rw [genreBonus_eq]
          rw [← h0]
          push_cast
          ring

unseal Rat.add Rat.mul Rat.sub Rat.inv Rat.ofScientific in
/-- Witness for C3: `movieC` has 2 genres both preferred, so it scores
exactly `0.6` above the empty-genre score `0.9`. -/
theorem c3_witness :
    calculate_match_score (Item.movie movieC) userC3 "movie" = some 1.5 := by
  have h := c3_genre_bonus_uncapped (Item.movie movieC) userC3 "movie" _ _ [] 0.9
    rfl rfl (by decide) (by decide)
  rw [h]
  decide

/-- C4: for a game item, the platform contribution to the match score is a
single `+0.2` when at least one of the item's platforms is preferred (the
loop breaks after the first match) and `0` otherwise, no matter how many
platforms match — unlike the movie actor bonus, which adds `+0.15` for
each matching actor without a cap. -/
theorem c4_platform_bonus_single
    (gm : Game) (u : UserProfile) (m : List (String × List PrefValue))
    (plats : List PrefValue) (s0 : ℚ)
    (hm : dictGet u.preferences "game" = some m)
    (hp : dictGet m "platforms" = some plats)
    (h0 : calculate_match_score (Item.game { gm with platforms := [] }) u "game" = some s0) :
    (calculate_match_score (Item.game gm) u "game" =
      some (s0 + (if gm.platforms.any (fun p => strMem p plats) then 0.2 else 0))) ∧
    (∀ (actors : List String) (prefs : List PrefValue),
      actorsBonus actors prefs = 0.15 * actors.countP (fun a => strMem a prefs)) := by
  refine ⟨?_, actorsBonus_eq⟩
  have hkb_eq : ∀ g : Game, kindBonus (Item.game g) u "game" =
      (dictGet m "developers").bind fun devs =>
        some ((if strMem g.developer devs then 0.2 else 0) +
          platformsBonus g.platforms plats) := by
    intro g
    simp [kindBonus, dictGet2, hm, hp]
  rw [calculate_match_score_unfold] at h0 ⊢
  rw [hm] at h0 ⊢
  dsimp only [Item.year, Item.genre, Item.rating, Item.item_id] at h0 ⊢
  simp only [Option.some_bind] at h0 ⊢
  cases hg : dictGet m "genres" with
  | none =>
    rw [hg] at h0
    simp at h0
  | some gs =>
    rw [hg] at h0
    simp only [Option.some_bind] at h0 ⊢
    cases hy : dictGet m "years" with
    | none =>
      rw [hy] at h0
      simp at h0
    | some ys =>
      rw [hy] at h0
      simp only [Option.some_bind] at h0 ⊢
      cases hyb : yearBonus gm.year ys with
      | none =>
        rw [hyb] at h0
        simp at h0
      | some yb =>
        rw [hyb] at h0
        simp only [Option.some_bind] at h0 ⊢
        rw [hkb_eq] at h0
        rw [hkb_eq]
        dsimp only at h0
        cases hdev : dictGet m "developers" with
        | none =>
          rw [hdev] at h0
          simp at h0
        | some devs =>
          rw [hdev] at h0
          simp only [Option.some_bind] at h0 ⊢
          cases hh : dictGet u.history "game" with
          | none =>
            rw [hh] at h0
            simp at h0
          | some hist =>
            rw [hh] at h0
            simp only [Option.some_bind, Option.some.injEq] at h0 ⊢
            rw [platformsBonus_eq]
            have hpb0 : platformsBonus [] plats = 0 := rfl
            rw [hpb0] at h0
            rw [← h0]
            ring

unseal Rat.add Rat.mul Rat.sub Rat.inv Rat.ofScientific in
/-- Witness for C4: `gameA` has platforms `["PC", "Switch"]` and the
profile prefers `"PC"`, so exactly one `+0.2` over the no-platform score
`0.9`. -/
theorem c4_witness :
    calculate_match_score (Item.game gameA) userC4 "game" = some 1.1 := by
  have h := (c4_platform_bonus_single gameA userC4 _ _ 0.9 rfl rfl (by decide)).1
  rw [h]
  decide

unseal Rat.add Rat.mul Rat.sub Rat.inv Rat.ofScientific in
/-- C5: when the item id is in the profile's history for the kind, the
match score is exactly `1.0` lower than with any history list not
containing that id, and the item is not excluded from results: in the
concrete catalog `dbC5`, the history item `m1` (pre-penalty score `1.5`)
still ranks above `m2` (score `0.3`) because their pre-penalty scores
differ by more than `1.0`. -/
theorem c5_history_penalty_additive
    (item : Item) (u : UserProfile) (k : String) (hist h' : List String) (s : ℚ)
    (hh : dictGet u.history k = some hist)
    (hmem : item.item_id ∈ hist)
    (hmem' : item.item_id ∉ h')
    (h0 : calculate_match_score item (setHistory u k h') k = some s) :
    (calculate_match_score item u k = some (s - 1)) ∧
    (∃ l, RecommendationEngine.get_recommendations dbC5 userC5 "movie" 2 = some l ∧
      l.map Item.item_id = ["m1", "m2"] ∧
      (dictGet userC5.history "movie").getD [] = ["m1"] ∧
      calculate_match_score (Item.movie movieHi) (setHistory userC5 "movie" []) "movie" =
        some 1.5 ∧
      calculate_match_score (Item.movie movieLo) (setHistory userC5 "movie" []) "movie" =
        some 0.3 ∧
      ((1.5 : ℚ) - 0.3 > 1)) := by
  constructor
  · have hpref : (setHistory u k h').preferences = u.preferences := rfl
    have hkb0 : kindBonus item (setHistory u k h') k = kindBonus item u k := rfl
    have hh2 : dictGet (setHistory u k h').history k = some h' :=
      dictGet_dictSet_self u.history k h'
    rw [calculate_match_score_unfold] at h0 ⊢
    rw [hpref] at h0
    cases hm : dictGet u.preferences k with
    | none =>
      rw [hm] at h0
      simp at h0
    | some m =>
      rw [hm] at h0
      simp only [Option.some_bind] at h0 ⊢
      cases hg : dictGet m "genres" with
      | none =>
        rw [hg] at h0
        simp at h0
      | some gs =>
        rw [hg] at h0
        simp only [Option.some_bind] at h0 ⊢
        cases hy : dictGet m "years" with
        | none =>
          rw [hy] at h0
          simp at h0
        | some ys =>
          rw [hy] at h0
          simp only [Option.some_bind] at h0 ⊢
          cases hyb : yearBonus item.year ys with
          | none =>
            rw [hyb] at h0
            simp at h0
          | some yb =>
            rw [hyb] at h0
            simp only [Option.some_bind] at h0 ⊢
            rw [hkb0] at h0
            cases hkb : kindBonus item u k with
            | none =>
              rw [hkb] at h0
              simp at h0
            | some kb =>
              rw [hkb] at h0
              simp only [Option.some_bind] at h0 ⊢
              rw [hh2] at h0
              rw [hh]
              simp only [Option.some_bind, Option.some.injEq] at h0 ⊢
              rw [if_neg hmem'] at h0
              rw [if_pos hmem]
              rw [← h0]
              ring
  · refine ⟨[Item.movie movieHi, Item.movie movieLo], ?_, by decide, by decide, by decide,
      by decide, by decide⟩
    have hsc : scoreItems (itemsFor dbC5 "movie") userC5 "movie" =
        some [(Item.movie movieHi, 0.5), (Item.movie movieLo, 0.3)] := by decide
    have hsorted : List.Pairwise (fun a b => scoreLe a b = true)
        [(Item.movie movieHi, (0.5 : ℚ)), (Item.movie movieLo, (0.3 : ℚ))] := by decide
    have hms := List.mergeSort_of_sorted hsorted
    unfold RecommendationEngine.get_recommendations
    rw [hsc]
    simp only [Option.pure_def, Option.bind_eq_bind, Option.some_bind]
    rw [hms]
    decide

unseal Rat.add Rat.mul Rat.sub Rat.inv Rat.ofScientific in
/-- Witness for C5: `movieHi` is in `userC5`'s movie history, so its score
is `1.5 - 1.0 = 0.5`. -/
theorem c5_witness :
    calculate_match_score (Item.movie movieHi) userC5 "movie" = some 0.5 := by
  have h := (c5_history_penalty_additive (Item.movie movieHi) userC5 "movie" _ [] 1.5
    rfl (by decide) (by decide) (by decide)).1
  rw [h]
  decide

/-- C6: `search` over all kinds returns exactly the items whose lowered
title contains the lowered query as a substring or one of whose lowered
genres does, grouped under the keys `"movies"`, `"music"`, `"books"`,
`"games"`; a kind's group entry is present in the result exactly when its
filter is non-empty (kinds with zero matches are omitted, never returned
as empty lists). -/
theorem c6_search_groups_nonempty (a : EntertainmentAIAgent) (query : String)
    (key : String) (group : List Item) :
    (key, group) ∈ a.search query none ↔
      ((key = "movies" ∧
        group = (a.db.get_movies.map Item.movie).filter (matches_query query.toLower) ∧
        (a.db.get_movies.map Item.movie).filter (matches_query query.toLower) ≠ []) ∨
       (key = "music" ∧
        group = (a.db.get_music.map Item.music).filter (matches_query query.toLower) ∧
        (a.db.get_music.map Item.music).filter (matches_query query.toLower) ≠ []) ∨
       (key = "books" ∧
        group = (a.db.get_books.map Item.book).filter (matches_query query.toLower) ∧
        (a.db.get_books.map Item.book).filter (matches_query query.toLower) ≠ []) ∨
       (key = "games" ∧
        group = (a.db.get_games.map Item.game).filter (matches_query query.toLower) ∧
        (a.db.get_games.map Item.game).filter (matches_query query.toLower) ≠ [])) := by
  by_cases h1 : (a.db.get_movies.map Item.movie).filter (matches_query query.toLower) = [] <;>
    by_cases h2 : (a.db.get_music.map Item.music).filter (matches_query query.toLower) = [] <;>
      by_cases h3 : (a.db.get_books.map Item.book).filter (matches_query query.toLower) = [] <;>
        by_cases h4 : (a.db.get_games.map Item.game).filter (matches_query query.toLower) = [] <;>
          simp [EntertainmentAIAgent.search, List.isEmpty_iff, h1, h2, h3, h4,
            Prod.ext_iff, and_assoc]

/-- C7: with no current user selected, the recommendation and history
operations return structured values instead of raising:
`get_recommendations` returns the error result and `add_user_preference`
and `add_to_history` return `false` with the agent (so every profile)
unchanged. -/
theorem c7_no_current_user_errors
    (a : EntertainmentAIAgent) (hcu : a.current_user = none)
    (mt : Option String) (c : ℤ) (mt2 cat : String) (v : PrefValue) (mt3 iid : String) :
    a.get_recommendations mt c = some (RecResult.err "No user selected") ∧
    a.add_user_preference mt2 cat v = some (false, a) ∧
    a.add_to_history mt3 iid = some (false, a) := by
  refine ⟨?_, ?_, ?_⟩
  · simp [EntertainmentAIAgent.get_recommendations, hcu]
  · simp [EntertainmentAIAgent.add_user_preference, hcu]
  · simp [EntertainmentAIAgent.add_to_history, hcu]

/-- Witness for C7: a concrete agent with `current_user = none`. -/
theorem c7_witness :
    agentC7.current_user = none ∧
    agentC7.get_recommendations none 3 = some (RecResult.err "No user selected") ∧
    agentC7.add_user_preference "movie" "genres" (PrefValue.str "Action") =
      some (false, agentC7) ∧
    agentC7.add_to_history "movie" "m1" = some (false, agentC7) := by
  have h := c7_no_current_user_errors agentC7 rfl none 3 "movie" "genres"
    (PrefValue.str "Action") "movie" "m1"
  exact ⟨rfl, h.1, h.2.1, h.2.2⟩

/-- C8: saving a catalog and loading the saved data reproduces the catalog
exactly, for all four kind collections, provided each collection's keys
are distinct and each entry is keyed by its item's id — the invariant the
`add_*` operations maintain.  In particular every item id and every field
of every item is preserved. -/
theorem c8_save_load_round_trip
    (db : EntertainmentDatabase)
    (h1 : (db.movies.map Prod.fst).Nodup) (h1k : ∀ p ∈ db.movies, p.1 = p.2.item_id)
    (h2 : (db.music.map Prod.fst).Nodup) (h2k : ∀ p ∈ db.music, p.1 = p.2.item_id)
    (h3 : (db.books.map Prod.fst).Nodup) (h3k : ∀ p ∈ db.books, p.1 = p.2.item_id)
    (h4 : (db.games.map Prod.fst).Nodup) (h4k : ∀ p ∈ db.games, p.1 = p.2.item_id) :
    EntertainmentDatabase.load_from_file db.save_to_file = db := by
  obtain ⟨ms, mu, bk, gm⟩ := db
  simp only [EntertainmentDatabase.save_to_file, EntertainmentDatabase.load_from_file,
    EntertainmentDatabase.mk.injEq]
  refine ⟨?_, ?_, ?_, ?_⟩
  · rw [List.foldl_map]
    exact foldl_dictSet_generic _ _ ms [] (by simpa using h1)
      (fun p hp => ⟨(h1k p hp).symm, rfl⟩)
  · rw [List.foldl_map]
    exact foldl_dictSet_generic _ _ mu [] (by simpa using h2)
      (fun p hp => ⟨(h2k p hp).symm, rfl⟩)
  · rw [List.foldl_map]
    exact foldl_dictSet_generic _ _ bk [] (by simpa using h3)
      (fun p hp => ⟨(h3k p hp).symm, rfl⟩)
  · rw [List.foldl_map]
    exact foldl_dictSet_generic _ _ gm [] (by simpa using h4)
      (fun p hp => ⟨(h4k p hp).symm, rfl⟩)

/-- Witness for C8: round trip on the concrete catalog `testDb`. -/
theorem c8_witness :
    EntertainmentDatabase.load_from_file testDb.save_to_file = testDb := by
  exact c8_save_load_round_trip testDb (by decide) (by decide) (by decide) (by decide)
    (by decide) (by decide) (by decide) (by decide)

/-- Counterexample to C9: on an agent holding one profile whose id is
`"user_2"` (reachable by loading a users file), `create_user` computes the
id `"user_" + str(len(users) + 1) = "user_2"`, which already identifies an
existing profile, and silently replaces that profile (the profile count
stays 1 and the stored name changes from `"Alice"` to `"Bob"`). -/
theorem c9_counterexample :
    (agentC9.create_user "Bob").1 ∈ agentC9.users.map Prod.fst ∧
    (agentC9.create_user "Bob").2.users.map Prod.fst = ["user_2"] ∧
    dictGet (agentC9.create_user "Bob").2.users "user_2" =
      some (UserProfile.init "user_2" "Bob") := by
  refine ⟨?_, ?_, ?_⟩ <;> decide

/-- C9 (amended): `create_user` assigns the id `"user_" + str(n + 1)` where
`n` is the current number of profiles; whenever that id is not already
present — e.g. when every profile was created through `create_user` — the
id is fresh, the new profile is appended, and distinctness of user ids is
preserved.  (Without that proviso the id can collide with a profile loaded
from file and silently replace it.) -/
theorem c9_create_user_fresh_unless_collision
    (a : EntertainmentAIAgent) (nm : String)
    (hfresh : ("user_" ++ toString (a.users.length + 1)) ∉ a.users.map Prod.fst) :
    (a.create_user nm).1 ∉ a.users.map Prod.fst ∧
    (a.create_user nm).2.users =
      a.users ++ [((a.create_user nm).1, UserProfile.init ((a.create_user nm).1) nm)] ∧
    ((a.users.map Prod.fst).Nodup → ((a.create_user nm).2.users.map Prod.fst).Nodup) := by
  have he : (a.create_user nm).2.users =
      a.users ++ [("user_" ++ toString (a.users.length + 1),
        UserProfile.init ("user_" ++ toString (a.users.length + 1)) nm)] := by
    simp only [EntertainmentAIAgent.create_user]
    rw [dictSet_eq_append _ _ _ hfresh]
  refine ⟨hfresh, he, ?_⟩
  intro hnd
  rw [he, List.map_append, List.nodup_append]
  refine ⟨hnd, by simp, ?_⟩
  intro x hx hmem
  simp at hmem
  subst hmem
  exact hfresh hx

/-- Witness for C9 (amended): on an agent with no profiles the assigned id
`"user_1"` is fresh and uniqueness is preserved. -/
theorem c9_witness :
    (agentC9b.create_user "Ann").1 ∉ agentC9b.users.map Prod.fst ∧
    ((agentC9b.create_user "Ann").2.users.map Prod.fst).Nodup := by
  have h := c9_create_user_fresh_unless_collision agentC9b "Ann" (by decide)
  exact ⟨h.1, h.2.2 (by decide)⟩
